import Mathlib

/-!
Shallow embedding of `src/slides/03_sql_basic.py`, a sequence of
instructional slides exercising a SQL expression library against an
in-memory SQLite database.  The slides define one table (`user_account`),
insert four example rows, run several SELECT statements (consuming the
results with iteration, `.all()`, `.one()`, `.one_or_none()`,
`.columns()` and `.scalars()`), run three UPDATE statements and one
DELETE statement.

The script itself authors no algorithms: every executed statement is a
call into the external library.  The embedding therefore consists of
(a) the literal data of the script (the schema of lines 6-13, the engine
URL of line 20, the predicates and statements of the remaining slides, in
source order), and (b) executable models of the documented behavior of
the external library's operations that the script invokes (row insertion
with an autoincrementing integer primary key, WHERE filtering, ORDER BY,
UPDATE, DELETE, and the result-accessor methods `one` / `one_or_none`).
The slides are executed by a presenter that displays the value (or the
raised error) of each slide's final expression and continues with the
next slide; outputs and raised errors are modelled as an explicit
output list.
-/

/-- SQL column types used by the script: `Integer` and `String(50)`
(lines 10-12). -/
inductive SqlType where
  | integer : SqlType
  | string (length : Nat) : SqlType
deriving DecidableEq

/-- A column definition: the arguments of a `Column(...)` call
(name, type, and whether `primary_key=True` was passed). -/
structure ColumnDef where
  name : String
  type : SqlType
  primaryKey : Bool
deriving DecidableEq

/-- A table definition: the arguments of a `Table(...)` call. -/
structure TableDef where
  name : String
  columns : List ColumnDef
deriving DecidableEq

/-- The table defined at lines 7-13 of the script:
`Table("user_account", metadata, Column("id", Integer, primary_key=True),
Column("username", String(50)), Column("fullname", String(50)))`. -/
def user_table : TableDef :=
  { name := "user_account"
    columns :=
      [ { name := "id", type := SqlType.integer, primaryKey := true }
      , { name := "username", type := SqlType.string 50, primaryKey := false }
      , { name := "fullname", type := SqlType.string 50, primaryKey := false } ] }

/-- The tables registered on the `MetaData()` object of line 6: the script
defines exactly the one table `user_table`. -/
def metadataTables : List TableDef := [user_table]

/-- The database URL passed to `create_engine` at line 20. -/
def engineUrl : String := "sqlite://"

/-- A row of the `user_account` table: an integer primary key and the two
string columns. -/
structure Row where
  id : Nat
  username : String
  fullname : String
deriving DecidableEq

/-- The state of the SQLite database: the schema installed by
`metadata.create_all` and the stored rows of `user_account`. -/
structure DB where
  schema : List TableDef
  rows : List Row
deriving DecidableEq

/-- A fresh database, as produced by `create_engine("sqlite://")` before
any statement has run: no tables, no rows. -/
def emptyDB : DB := { schema := [], rows := [] }

/-- Modelled library behavior: SQLite assigns an `INTEGER PRIMARY KEY`
column the value `max(existing ids) + 1` (starting from 1) when the
INSERT supplies no id, as all INSERTs of the script do. -/
def nextId (rows : List Row) : Nat :=
  rows.foldr (fun r m => max r.id m) 0 + 1

/-- Modelled library behavior: executing `user_table.insert()` with a
username and a fullname appends one row with a fresh id. -/
def DB.insertRow (db : DB) (u f : String) : DB :=
  { db with rows := db.rows ++ [{ id := nextId db.rows, username := u, fullname := f }] }

/-- A column of `user_account` viewed as an accessor, the denotation of
`user_table.c.<columnname>` for the string columns. -/
def colUsername : Row → String := Row.username

/-- The accessor denoting `user_table.c.fullname`. -/
def colFullname : Row → String := Row.fullname

/-- The predicate built by `col == "literal"` on a string column. -/
def colEq (col : Row → String) (v : String) : Row → Bool :=
  fun r => col r == v

/-- The predicate built by `col.in_(values)`: membership of the column
value in the given collection (lines 113 and 124). -/
def in_ (col : Row → String) (vs : List String) : Row → Bool :=
  fun r => vs.contains (col r)

/-- The conjunction `and_(p, q)` of two criteria (line 58). -/
def and_ (p q : Row → Bool) : Row → Bool :=
  fun r => p r && q r

/-- The disjunction `or_(p, q)` of two criteria (line 58). -/
def or_ (p q : Row → Bool) : Row → Bool :=
  fun r => p r || q r

/-- A `select(user_table ...)` statement under construction: the list of
WHERE criteria accumulated by `.where(...)` calls.  Multiple criteria are
joined by AND when the statement runs. -/
structure Select where
  wheres : List (Row → Bool)

/-- `select(user_table)` with no WHERE clause yet. -/
def selectUserTable : Select := { wheres := [] }

/-- The `.where(p)` builder method: appends one criterion. -/
def Select.where_ (s : Select) (p : Row → Bool) : Select :=
  { wheres := s.wheres ++ [p] }

/-- Modelled library behavior: the rows a SELECT returns are the stored
rows satisfying every WHERE criterion. -/
def Select.rowsOf (s : Select) (rows : List Row) : List Row :=
  rows.filter (fun r => s.wheres.all (fun p => p r))

/-- Lexicographic comparison of character lists by character code. -/
def charsLe : List Char → List Char → Bool
  | [], _ => true
  | _ :: _, [] => false
  | a :: as, b :: bs =>
      if a.toNat < b.toNat then true
      else if b.toNat < a.toNat then false
      else charsLe as bs

/-- Lexicographic string comparison by character code: the ordering
SQLite's ORDER BY applies to the script's ASCII usernames. -/
def strLe (a b : String) : Bool := charsLe a.data b.data

/-- Insert a row into a list sorted by username (helper for ORDER BY). -/
def insertByUsername (r : Row) : List Row → List Row
  | [] => [r]
  | x :: xs =>
      if strLe r.username x.username then r :: x :: xs
      else x :: insertByUsername r xs

/-- Modelled library behavior: `ORDER BY username` sorts the result rows
by the username column (insertion sort; the script's usernames are
distinct, so any sort agrees). -/
def sortByUsername : List Row → List Row
  | [] => []
  | x :: xs => insertByUsername x (sortByUsername xs)

/-- Modelled library behavior of `Result.one()` (documented at lines
213 and 220): returns the single element of a one-element result, and
raises otherwise. -/
def one {α : Type} : List α → Except String α
  | [x] => Except.ok x
  | [] => Except.error "No row was found when one was required"
  | _ => Except.error "Multiple rows were found when exactly one was required"

/-- Modelled library behavior of `Result.one_or_none()` (documented at
lines 227-228): `none` for an empty result, the single element of a
one-element result, and raises only for two or more rows. -/
def oneOrNone {α : Type} : List α → Except String (Option α)
  | [] => Except.ok none
  | [x] => Except.ok (some x)
  | _ => Except.error "Multiple rows were found when one or none was required"

instance {ε α : Type} [DecidableEq ε] [DecidableEq α] : DecidableEq (Except ε α) :=
  fun a b =>
    match a, b with
    | Except.ok x, Except.ok y =>
        if h : x = y then isTrue (by rw [h]) else isFalse (by intro hc; cases hc; exact h rfl)
    | Except.error x, Except.error y =>
        if h : x = y then isTrue (by rw [h]) else isFalse (by intro hc; cases hc; exact h rfl)
    | Except.ok _, Except.error _ => isFalse (by intro hc; cases hc)
    | Except.error _, Except.ok _ => isFalse (by intro hc; cases hc)

/-- One observable output event of a slide: a printed `(username,
fullname)` row tuple (lines 169-170), an error raised by
`connection.execute` itself (such as "no such table" when the statement
names a table missing from the database schema), the echoed value or
raised error of a `.one()` call on a fullname SELECT, the echoed value
or raised error of a `.one_or_none()` call, or a printed text line
(lines 242-243, 253-254). -/
inductive Out where
  | rowUF (username fullname : String) : Out
  | execError (msg : String) : Out
  | oneRes (res : Except String String) : Out
  | oneOrNoneRes (res : Except String (Option Row)) : Out
  | line (s : String) : Out
deriving DecidableEq

/-- The database statements the script executes, one constructor per
executed slide form.  Slides that only build and print expression
objects (lines 24-125) execute no statement against the engine and read
and write no database state; they are not part of this list's
vocabulary. -/
inductive Stmt where
  /-- `metadata.create_all(conn)` (lines 21-22). -/
  | createAll : Stmt
  /-- `user_table.insert().values(...)` or `user_table.insert()` with one
  parameter dictionary (lines 133-138 and 144-147). -/
  | insertRow (username fullname : String) : Stmt
  /-- `user_table.insert()` with a list of parameter dictionaries
  ("executemany", lines 150-156). -/
  | insertMany (pairs : List (String × String)) : Stmt
  /-- SELECT of the username and fullname columns with a WHERE clause,
  each result row printed (lines 163-170). -/
  | selectPrintUF (p : Row → Bool) : Stmt
  /-- A SELECT consumed with `.all()` and discarded (lines 175-177,
  182-189 and 194-201); ORDER BY does not change which rows appear. -/
  | selectResultAll (s : Select) : Stmt
  /-- SELECT of the fullname column with a WHERE clause, consumed with
  `.one()` (lines 214-217). -/
  | selectOneFullname (p : Row → Bool) : Stmt
  /-- SELECT of the fullname column of every row ordered by username,
  consumed with `.one()` (lines 221-224). -/
  | selectOneFullnameOrdered : Stmt
  /-- SELECT with a WHERE clause consumed with `.one_or_none()`
  (lines 229-232). -/
  | selectOneOrNone (p : Row → Bool) : Stmt
  /-- SELECT ordered by username, iterated through
  `.columns("fullname", "username")`, printing "fullname username"
  per row (lines 239-243). -/
  | selectColumnsPrint : Stmt
  /-- SELECT ordered by username, iterated through
  `.scalars("fullname")`, printing the fullname per row
  (lines 250-254). -/
  | selectScalarsPrint : Stmt
  /-- `user_table.update().values(fullname=...).where(p)`, or the
  parameter-dictionary form with the same SET clause (lines 262-269 and
  275-281). -/
  | updateFullnameWhere (newFullname : String) (p : Row → Bool) : Stmt
  /-- `user_table.update().values(fullname=user_table.c.username + " " +
  user_table.c.fullname)` with no WHERE clause (lines 287-295). -/
  | updateConcatAll : Stmt
  /-- `user_table.delete().where(p)` (lines 300-303). -/
  | deleteWhere (p : Row → Bool) : Stmt

/-- Executing one statement: the new database state and the slide's
observable output. -/
def execStmt (db : DB) : Stmt → DB × List Out
  | Stmt.createAll => ({ db with schema := metadataTables }, [])
  | Stmt.insertRow u f => (db.insertRow u f, [])
  | Stmt.insertMany pairs =>
      (pairs.foldl (fun d p => d.insertRow p.1 p.2) db, [])
  | Stmt.selectPrintUF p =>
      (db, (db.rows.filter p).map (fun r => Out.rowUF r.username r.fullname))
  | Stmt.selectResultAll _ => (db, [])
  | Stmt.selectOneFullname p =>
      (db, [Out.oneRes (one ((db.rows.filter p).map Row.fullname))])
  | Stmt.selectOneFullnameOrdered =>
      (db, [Out.oneRes (one ((sortByUsername db.rows).map Row.fullname))])
  | Stmt.selectOneOrNone p =>
      (db, [Out.oneOrNoneRes (oneOrNone (db.rows.filter p))])
  | Stmt.selectColumnsPrint =>
      (db, (sortByUsername db.rows).map (fun r => Out.line (r.fullname ++ " " ++ r.username)))
  | Stmt.selectScalarsPrint =>
      (db, (sortByUsername db.rows).map (fun r => Out.line r.fullname))
  | Stmt.updateFullnameWhere nf p =>
      ({ db with rows := db.rows.map (fun r => if p r then { r with fullname := nf } else r) }, [])
  | Stmt.updateConcatAll =>
      ({ db with rows := db.rows.map (fun r => { r with fullname := r.username ++ " " ++ r.fullname }) }, [])
  | Stmt.deleteWhere p =>
      ({ db with rows := db.rows.filter (fun r => !(p r)) }, [])

/-- Executing a list of statements in order, accumulating outputs. -/
def runList (db : DB) : List Stmt → DB × List Out
  | [] => (db, [])
  | s :: rest =>
      let step := execStmt db s
      let tail := runList step.1 rest
      (tail.1, step.2 ++ tail.2)

/-- Modelled library behavior of `connection.execute(...)`: executing
any statement that targets `user_account` against a database whose
schema does not contain the table raises an OperationalError
"no such table: user_account" at execute time, before any statement
semantics or result method runs; when the table exists the statement
executes as `execStmt`.  The script creates the table first (lines
21-22), so along its actual trace the two agree from the first
statement on. -/
def execStmtChecked (db : DB) (s : Stmt) : DB × List Out :=
  match s with
  | Stmt.createAll => execStmt db Stmt.createAll
  | s =>
      if db.schema.contains user_table then execStmt db s
      else (db, [Out.execError "no such table: user_account"])

/-- Executing a list of statements in order under the execute-time table
check. -/
def runListChecked (db : DB) : List Stmt → DB × List Out
  | [] => (db, [])
  | s :: rest =>
      let step := execStmtChecked db s
      let tail := runListChecked step.1 rest
      (tail.1, step.2 ++ tail.2)

/-- Once the table exists in the schema, the execute-time check is
inert: checked and unchecked execution coincide. -/
theorem execStmtChecked_eq_execStmt (db : DB) (s : Stmt)
    (h : db.schema.contains user_table = true) :
    execStmtChecked db s = execStmt db s := by
  have hm : user_table ∈ db.schema := by simpa using h
  cases s <;> simp [execStmtChecked, hm]

/-- The statements executed before the `.one()` slide of lines 211-217,
in source order: table creation (lines 21-22), the four INSERTs
(lines 133-156), and the four SELECT slides of lines 158-201. -/
def slidesBeforeOne : List Stmt :=
  [ Stmt.createAll
  , Stmt.insertRow "spongebob" "Spongebob Squarepants"
  , Stmt.insertRow "sandy" "Sandy Cheeks"
  , Stmt.insertMany [("patrick", "Patrick Star"), ("squidward", "Squidward Tentacles")]
  , Stmt.selectPrintUF (colEq colUsername "spongebob")
  , Stmt.selectResultAll selectUserTable
  , Stmt.selectResultAll (selectUserTable.where_
      (or_ (colEq colUsername "spongebob") (colEq colUsername "sandy")))
  , Stmt.selectResultAll
      ((selectUserTable.where_ (colEq colUsername "spongebob")).where_
        (colEq colFullname "Spongebob Squarepants")) ]

/-- The `.one()` slide of lines 211-217: SELECT the fullname of the rows
whose username is "spongebob" and consume the result with `.one()`. -/
def oneSlideStmt : Stmt := Stmt.selectOneFullname (colEq colUsername "spongebob")

/-- The statements executed after the `.one()` slide and before the final
DELETE, in source order (lines 219-295). -/
def slidesAfterOne : List Stmt :=
  [ Stmt.selectOneFullnameOrdered
  , Stmt.selectOneOrNone (colEq colUsername "nonexistent")
  , Stmt.selectColumnsPrint
  , Stmt.selectScalarsPrint
  , Stmt.updateFullnameWhere "Patrick Star" (colEq colUsername "patrick")
  , Stmt.updateFullnameWhere "Patrick Star" (colEq colUsername "patrick")
  , Stmt.updateConcatAll ]

/-- The final DELETE statement (lines 300-303). -/
def deleteSlideStmt : Stmt := Stmt.deleteWhere (colEq colUsername "patrick")

/-- Every statement of the script before the final DELETE. -/
def slidesBeforeDelete : List Stmt :=
  slidesBeforeOne ++ oneSlideStmt :: slidesAfterOne

/-- The complete sequence of statements the script executes, in source
order. -/
def theProgram : List Stmt := slidesBeforeDelete ++ [deleteSlideStmt]

/-- The database state after the four INSERT slides (and the SELECT
slides, which do not modify it). -/
def dbBeforeOne : DB := (runList emptyDB slidesBeforeOne).1

/-- The database state just before the final DELETE. -/
def dbBeforeDelete : DB := (runList emptyDB slidesBeforeDelete).1

/-- The final database state of a complete run from a fresh database. -/
def scriptFinalDB : DB := (runList emptyDB theProgram).1

/-- The complete observable output of a run from a fresh database. -/
def scriptOutput : List Out := (runList emptyDB theProgram).2

/-- The database state right after the four INSERT slides
(the first four statements of the script). -/
def dbAfterInserts : DB := (runList emptyDB (slidesBeforeOne.take 4)).1

/-- On the script's actual run the execute-time table check never
fires: the checked and unchecked executions of the whole program from
the fresh state produce the same final database and the same output. -/
theorem runListChecked_eq_on_script :
    runListChecked emptyDB theProgram = runList emptyDB theProgram := by
  decide

/-- The (username, fullname) pairs a statement inserts. -/
def Stmt.insertedPairs : Stmt → List (String × String)
  | Stmt.insertRow u f => [(u, f)]
  | Stmt.insertMany pairs => pairs
  | _ => []

/-- All (username, fullname) pairs inserted by a statement sequence, in
order. -/
def insertedPairsOf (prog : List Stmt) : List (String × String) :=
  prog.foldr (fun s acc => s.insertedPairs ++ acc) []

/-- Big-step execution relation for a statement sequence: `ExecR db prog
db2 out2` holds when running `prog` from state `db` ends in state `db2`
having produced output `out2`.  A run of the script is a derivation of
this relation from `emptyDB` over `theProgram`. -/
inductive ExecR : DB → List Stmt → DB → List Out → Prop where
  | nil (db : DB) : ExecR db [] db []
  | cons (db : DB) (s : Stmt) (rest : List Stmt) (db2 : DB) (out2 : List Out) :
      ExecR (execStmt db s).1 rest db2 out2 →
      ExecR db (s :: rest) db2 ((execStmt db s).2 ++ out2)

/-- The execution relation is deterministic: two derivations from the
same state over the same statements agree on final state and output. -/
theorem ExecR.deterministic {db : DB} {prog : List Stmt} {d1 d2 : DB}
    {o1 o2 : List Out} (h1 : ExecR db prog d1 o1) (h2 : ExecR db prog d2 o2) :
    d1 = d2 ∧ o1 = o2 := by
  induction h1 generalizing d2 o2 with
  | nil db => cases h2; exact ⟨rfl, rfl⟩
  | cons db s rest db' out' h ih =>
      cases h2 with
      | cons _ _ _ db2' out2' h' =>
          obtain ⟨hd, ho⟩ := ih h'
          exact ⟨hd, by rw [ho]⟩

/-- The functional execution `runList` yields a derivation of `ExecR`. -/
theorem execR_runList (prog : List Stmt) :
    ∀ (db : DB), ExecR db prog (runList db prog).1 (runList db prog).2 := by
  induction prog with
  | nil => intro db; exact ExecR.nil db
  | cons s rest ih =>
      intro db
      exact ExecR.cons db s rest _ _ (ih (execStmt db s).1)

/-- Modelled library behavior of database URLs: `"sqlite://"` (and the
spelled-out `"sqlite:///:memory:"`) name SQLite's in-memory database,
which is backed by no file; a URL with a path names a database file on
the filesystem. -/
def urlDatabaseFile (url : String) : Option String :=
  if url = "sqlite://" || url = "sqlite:///:memory:" then none
  else if url.startsWith "sqlite:///" then some (url.drop 10)
  else none

/-- The state visible to a run together with the state outside the
database engine: the filesystem, as an association list from file names
to contents.  Only the filesystem outlives the run of the script. -/
structure World where
  db : DB
  files : List (String × String)

/-- Serialization of the database contents as stored in a database
file. -/
def dbDump (db : DB) : String :=
  String.intercalate ";"
    (db.rows.map (fun r => toString r.id ++ "|" ++ r.username ++ "|" ++ r.fullname))

/-- Overwrite one file of the filesystem. -/
def setFile (files : List (String × String)) (f v : String) :
    List (String × String) :=
  (f, v) :: files.filter (fun e => !(e.1 == f))

/-- Executing a statement against an engine created from `url`: a
file-backed database persists the committed state to its file; the
in-memory database touches no file. -/
def execStmtWorld (url : String) (w : World) (s : Stmt) : World × List Out :=
  let step := execStmt w.db s
  match urlDatabaseFile url with
  | none => ({ db := step.1, files := w.files }, step.2)
  | some f => ({ db := step.1, files := setFile w.files f (dbDump step.1) }, step.2)

/-- Executing a statement list against an engine created from `url`. -/
def runWorld (url : String) (w : World) : List Stmt → World × List Out
  | [] => (w, [])
  | s :: rest =>
      let step := execStmtWorld url w s
      let tail := runWorld url step.1 rest
      (tail.1, step.2 ++ tail.2)

/-- Inserting a row does not touch the schema. -/
theorem insertRow_schema (db : DB) (u f : String) :
    (db.insertRow u f).schema = db.schema := rfl

/-- An executemany INSERT does not touch the schema. -/
theorem foldl_insertRow_schema (pairs : List (String × String)) :
    ∀ (db : DB),
      (pairs.foldl (fun d p => d.insertRow p.1 p.2) db).schema = db.schema := by
  induction pairs with
  | nil => intro db; rfl
  | cons p rest ih => intro db; rw [List.foldl_cons, ih]; rfl

/-- Running any statements against an in-memory engine leaves every file
unchanged. -/
theorem runWorld_files_of_memory (url : String) (h : urlDatabaseFile url = none) :
    ∀ (prog : List Stmt) (w : World),
      ((runWorld url w prog).1).files = w.files := by
  intro prog
  induction prog with
  | nil => intro w; rfl
  | cons s rest ih =>
      intro w
      show ((runWorld url (execStmtWorld url w s).1 rest).1).files = w.files
      rw [ih]
      simp [execStmtWorld, h]

/-- C1: for every executed SELECT whose result is consumed with the
`one()` method, `one()` returns the single row when the result has
exactly one row and raises an error when it has zero rows or more than
one row; in the script, the SELECT of lines 214-217 (one matching row)
returns the spongebob row and the SELECT of lines 221-224 (four rows)
raises. -/
theorem one_method_spec :
    (∀ (α : Type) (x : α), one [x] = Except.ok x)
    ∧ (∀ (α : Type),
        one ([] : List α) = Except.error "No row was found when one was required")
    ∧ (∀ (α : Type) (a b : α) (rest : List α),
        one (a :: b :: rest) =
          Except.error "Multiple rows were found when exactly one was required")
    ∧ (execStmt dbBeforeOne oneSlideStmt).2 =
        [Out.oneRes (Except.ok "Spongebob Squarepants")]
    ∧ (execStmt dbBeforeOne Stmt.selectOneFullnameOrdered).2 =
        [Out.oneRes
          (Except.error "Multiple rows were found when exactly one was required")] :=
  ⟨fun _ _ => rfl, fun _ => rfl, fun _ _ _ _ => rfl, by decide, by decide⟩

/-- C2 counterexample: the claim "every slide is independent of the
state created by earlier slides" is false at the `.one()` slide of lines
211-217: executed against a fresh initial state it produces a different
observable result than executed after all preceding slides have run. -/
theorem slide_independence_cex :
    (execStmtChecked emptyDB oneSlideStmt).2 ≠
      (execStmtChecked dbBeforeOne oneSlideStmt).2 := by
  decide

/-- C2 amended: the `.one()` slide of lines 211-217 depends on state
created by the earlier slides: after the preceding slides have run
(table created, rows inserted) it returns the spongebob row, while
against a fresh initial state — on which the table-creation slide has
not run — its `execute()` call fails with "no such table: user_account"
and `one()` is never reached. -/
theorem one_slide_depends_on_earlier_slides :
    (execStmtChecked dbBeforeOne oneSlideStmt).2 =
      [Out.oneRes (Except.ok "Spongebob Squarepants")]
    ∧ (execStmtChecked emptyDB oneSlideStmt).2 =
      [Out.execError "no such table: user_account"] := by
  exact ⟨by decide, by decide⟩

/-- C3: the program defines exactly one table schema, `user_account`,
with columns id (Integer, primary key), username (String(50)) and
fullname (String(50)); no executed statement alters this schema after
its definition — every statement either preserves the database schema or
(for `create_all`) installs exactly the defined metadata. -/
theorem user_account_schema_spec :
    metadataTables =
      [ { name := "user_account"
          columns :=
            [ { name := "id", type := SqlType.integer, primaryKey := true }
            , { name := "username", type := SqlType.string 50, primaryKey := false }
            , { name := "fullname", type := SqlType.string 50, primaryKey := false } ] } ]
    ∧ (∀ (db : DB) (s : Stmt),
        ((execStmt db s).1).schema = db.schema
        ∨ (s = Stmt.createAll ∧ ((execStmt db s).1).schema = metadataTables)) := by
  refine ⟨rfl, ?_⟩
  intro db s
  cases s <;> simp [execStmt, insertRow_schema, foldl_insertRow_schema]

/-- C4: the only rows the program inserts are the four example rows, and
after the INSERT slides (and still before any UPDATE or DELETE) the
table contains exactly those four rows with ids 1 to 4. -/
theorem inserted_rows_spec :
    insertedPairsOf theProgram =
      [ ("spongebob", "Spongebob Squarepants"), ("sandy", "Sandy Cheeks")
      , ("patrick", "Patrick Star"), ("squidward", "Squidward Tentacles") ]
    ∧ dbAfterInserts.rows =
      [ { id := 1, username := "spongebob", fullname := "Spongebob Squarepants" }
      , { id := 2, username := "sandy", fullname := "Sandy Cheeks" }
      , { id := 3, username := "patrick", fullname := "Patrick Star" }
      , { id := 4, username := "squidward", fullname := "Squidward Tentacles" } ]
    ∧ dbBeforeOne.rows = dbAfterInserts.rows := by
  refine ⟨rfl, by decide, by decide⟩

/-- C5: chaining two `.where()` calls selects exactly the rows of the
single combined criterion `and_(p, q)`; in particular the two-`where`
SELECT of lines 194-201 returns the same rows as the conjunction of its
two conditions on the script's table contents. -/
theorem chained_where_eq_and :
    (∀ (p q : Row → Bool) (rows : List Row),
        ((selectUserTable.where_ p).where_ q).rowsOf rows =
          rows.filter (and_ p q))
    ∧ ((selectUserTable.where_ (colEq colUsername "spongebob")).where_
          (colEq colFullname "Spongebob Squarepants")).rowsOf dbBeforeOne.rows =
        dbBeforeOne.rows.filter
          (and_ (colEq colUsername "spongebob")
            (colEq colFullname "Spongebob Squarepants")) := by
  constructor
  · intro p q rows
    have h : and_ p q = fun r => p r && q r := rfl
    rw [h]
    simp [Select.rowsOf, Select.where_, selectUserTable]
  · decide

/-- C6: execution of the script is sequential and deterministic: any two
complete runs from the same fresh initial state execute the same
statement sequence (`theProgram`, fixed by the source) and end with
identical database contents and identical observable output. -/
theorem script_deterministic :
    ∀ (d1 d2 : DB) (o1 o2 : List Out),
      ExecR emptyDB theProgram d1 o1 → ExecR emptyDB theProgram d2 o2 →
      d1 = d2 ∧ o1 = o2 :=
  fun _ _ _ _ h1 h2 => ExecR.deterministic h1 h2

/-- Witness for C6: the run of the script from the fresh state exists,
and two such runs agree. -/
theorem script_deterministic_witness :
    ExecR emptyDB theProgram scriptFinalDB scriptOutput
    ∧ (scriptFinalDB = scriptFinalDB ∧ scriptOutput = scriptOutput) :=
  ⟨execR_runList theProgram emptyDB,
   script_deterministic scriptFinalDB scriptFinalDB scriptOutput scriptOutput
     (execR_runList theProgram emptyDB) (execR_runList theProgram emptyDB)⟩

/-- C7: the engine of line 20 is created from the URL `"sqlite://"`,
which names an in-memory database backed by no file, and a complete run
of the script leaves the state outside the database engine (the
filesystem) exactly as it was — nothing the run stores survives in it. -/
theorem in_memory_no_external_effects :
    urlDatabaseFile engineUrl = none
    ∧ (∀ (w : World),
        ((runWorld engineUrl w theProgram).1).files = w.files) :=
  ⟨rfl, fun w => runWorld_files_of_memory engineUrl rfl theProgram w⟩

/-- C8: for every executed SELECT whose result is consumed with
`one_or_none()`, the method returns `none` for zero rows, the single row
for exactly one row, and raises only for more than one row; in the
script, the SELECT on username "nonexistent" (lines 229-232) returns
`none`. -/
theorem one_or_none_method_spec :
    (∀ (α : Type), oneOrNone ([] : List α) = Except.ok none)
    ∧ (∀ (α : Type) (x : α), oneOrNone [x] = Except.ok (some x))
    ∧ (∀ (α : Type) (a b : α) (rest : List α),
        oneOrNone (a :: b :: rest) =
          Except.error "Multiple rows were found when one or none was required")
    ∧ (execStmt dbBeforeOne
          (Stmt.selectOneOrNone (colEq colUsername "nonexistent"))).2 =
        [Out.oneOrNoneRes (Except.ok none)] :=
  ⟨fun _ => rfl, fun _ _ => rfl, fun _ _ _ _ => rfl, by decide⟩

/-- C9: the membership criterion built from the empty collection,
`user_table.c.username.in_([])` (line 124), is false for every row, and a
SELECT using it as its WHERE criterion returns zero rows whatever the
table contains. -/
theorem in_empty_selects_nothing :
    (∀ (r : Row), in_ colUsername [] r = false)
    ∧ (∀ (rows : List Row),
        (selectUserTable.where_ (in_ colUsername [])).rowsOf rows = []) := by
  constructor
  · intro r; rfl
  · intro rows
    simp [Select.rowsOf, Select.where_, selectUserTable, in_]

/-- C10: the final DELETE (lines 300-303) removes exactly the rows whose
username is "patrick" and leaves every other row unchanged — a row is in
the table afterwards iff it was there before with a username other than
"patrick", the surviving rows keep their relative order and all their
fields, and on the script's actual state the final table is the three
non-patrick rows exactly as they stood before the DELETE. -/
theorem delete_patrick_spec :
    (∀ (db : DB) (r : Row),
        r ∈ ((execStmt db deleteSlideStmt).1).rows ↔
          r ∈ db.rows ∧ r.username ≠ "patrick")
    ∧ (∀ (db : DB),
        List.Sublist ((execStmt db deleteSlideStmt).1).rows db.rows)
    ∧ scriptFinalDB.rows =
        [ { id := 1, username := "spongebob"
            fullname := "spongebob Spongebob Squarepants" }
        , { id := 2, username := "sandy", fullname := "sandy Sandy Cheeks" }
        , { id := 4, username := "squidward"
            fullname := "squidward Squidward Tentacles" } ]
    ∧ scriptFinalDB.rows =
        dbBeforeDelete.rows.filter (fun r => !(colEq colUsername "patrick" r)) := by
  refine ⟨?_, ?_, by decide, by decide⟩
  · intro db r
    simp [execStmt, deleteSlideStmt, List.mem_filter, colEq, colUsername]
  · intro db
    exact List.filter_sublist db.rows
